import Mathlib

/-!
# Verification of the pysph integrator-step schemes

A shallow embedding of `pysph/sph/integrator_step.py`.  Every per-particle
property array of the Python code (`d_x`, `d_u0`, `d_au`, ...) becomes a
field of a `Particle` record; each scheme operation, which in the source reads
and writes array entries only at `d_idx`, becomes a function
`Particle → ℚ → Particle` (the rational argument is `dt`), translated line by line
from the source.  Array-level state is `Nat → Particle`; an operation applied
at index `i` is `Function.update` at `i`.  Double precision floats are
modelled by exact rational numbers (the claims under test are exact identities of the update formulas).
-/

/-- The per-particle state: one field per property array appearing in
`integrator_step.py`, dropping the `d_` prefix.  Current quantities, their
predictor copies (suffix `0`), deviatoric stress components, and the
acceleration / rate arrays supplied by the external evaluator. -/
structure Particle where
  x : ℚ := 0
  y : ℚ := 0
  z : ℚ := 0
  u : ℚ := 0
  v : ℚ := 0
  w : ℚ := 0
  rho : ℚ := 0
  e : ℚ := 0
  h : ℚ := 0
  converged : ℚ := 0
  omega : ℚ := 0
  uhat : ℚ := 0
  vhat : ℚ := 0
  vmag2 : ℚ := 0
  x0 : ℚ := 0
  y0 : ℚ := 0
  z0 : ℚ := 0
  u0 : ℚ := 0
  v0 : ℚ := 0
  w0 : ℚ := 0
  rho0 : ℚ := 0
  e0 : ℚ := 0
  h0 : ℚ := 0
  s00 : ℚ := 0
  s01 : ℚ := 0
  s02 : ℚ := 0
  s11 : ℚ := 0
  s12 : ℚ := 0
  s22 : ℚ := 0
  s000 : ℚ := 0
  s010 : ℚ := 0
  s020 : ℚ := 0
  s110 : ℚ := 0
  s120 : ℚ := 0
  s220 : ℚ := 0
  au : ℚ := 0
  av : ℚ := 0
  aw : ℚ := 0
  ax : ℚ := 0
  ay : ℚ := 0
  az : ℚ := 0
  arho : ℚ := 0
  ae : ℚ := 0
  auhat : ℚ := 0
  avhat : ℚ := 0
  as00 : ℚ := 0
  as01 : ℚ := 0
  as02 : ℚ := 0
  as11 : ℚ := 0
  as12 : ℚ := 0
  as22 : ℚ := 0

/-- Two particle records with equal fields are equal (structure
extensionality, stated with one hypothesis per property array). -/
lemma Particle.ext1 (p q : Particle)
    (e_x : p.x = q.x) (e_y : p.y = q.y) (e_z : p.z = q.z) (e_u : p.u = q.u)
    (e_v : p.v = q.v) (e_w : p.w = q.w) (e_rho : p.rho = q.rho) (e_e : p.e =
    q.e) (e_h : p.h = q.h) (e_converged : p.converged = q.converged)
    (e_omega : p.omega = q.omega) (e_uhat : p.uhat = q.uhat) (e_vhat :
    p.vhat = q.vhat) (e_vmag2 : p.vmag2 = q.vmag2) (e_x0 : p.x0 = q.x0)
    (e_y0 : p.y0 = q.y0) (e_z0 : p.z0 = q.z0) (e_u0 : p.u0 = q.u0) (e_v0 :
    p.v0 = q.v0) (e_w0 : p.w0 = q.w0) (e_rho0 : p.rho0 = q.rho0) (e_e0 :
    p.e0 = q.e0) (e_h0 : p.h0 = q.h0) (e_s00 : p.s00 = q.s00) (e_s01 : p.s01
    = q.s01) (e_s02 : p.s02 = q.s02) (e_s11 : p.s11 = q.s11) (e_s12 : p.s12
    = q.s12) (e_s22 : p.s22 = q.s22) (e_s000 : p.s000 = q.s000) (e_s010 :
    p.s010 = q.s010) (e_s020 : p.s020 = q.s020) (e_s110 : p.s110 = q.s110)
    (e_s120 : p.s120 = q.s120) (e_s220 : p.s220 = q.s220) (e_au : p.au =
    q.au) (e_av : p.av = q.av) (e_aw : p.aw = q.aw) (e_ax : p.ax = q.ax)
    (e_ay : p.ay = q.ay) (e_az : p.az = q.az) (e_arho : p.arho = q.arho)
    (e_ae : p.ae = q.ae) (e_auhat : p.auhat = q.auhat) (e_avhat : p.avhat =
    q.avhat) (e_as00 : p.as00 = q.as00) (e_as01 : p.as01 = q.as01) (e_as02 :
    p.as02 = q.as02) (e_as11 : p.as11 = q.as11) (e_as12 : p.as12 = q.as12)
    (e_as22 : p.as22 = q.as22) : p = q := by
  cases p; cases q; rw [Particle.mk.injEq]
  exact ⟨e_x, e_y, e_z, e_u, e_v, e_w, e_rho, e_e, e_h, e_converged, e_omega,
    e_uhat, e_vhat, e_vmag2, e_x0, e_y0, e_z0, e_u0, e_v0, e_w0, e_rho0,
    e_e0, e_h0, e_s00, e_s01, e_s02, e_s11, e_s12, e_s22, e_s000, e_s010,
    e_s020, e_s110, e_s120, e_s220, e_au, e_av, e_aw, e_ax, e_ay, e_az,
    e_arho, e_ae, e_auhat, e_avhat, e_as00, e_as01, e_as02, e_as11, e_as12,
    e_as22⟩

/-- `EulerStep.initialize` is `pass`. -/
@[simp]
def EulerStep.init (p : Particle) : Particle := p

/-- `EulerStep.stage1`: forward Euler; the position update reads the freshly
updated velocity (the source increments `d_u` first and then reads it for
`d_x`). -/
@[simps]
def EulerStep.stage1 (p : Particle) (dt : ℚ) : Particle :=
  let u := p.u + dt * p.au
  let v := p.v + dt * p.av
  let w := p.w + dt * p.aw
  let x := p.x + dt * u
  let y := p.y + dt * v
  let z := p.z + dt * w
  let rho := p.rho + dt * p.arho
  { p with u := u, v := v, w := w, x := x, y := y, z := z, rho := rho }

/-- `WCSPHStep.initialize`: copy current state into the predictor properties. -/
@[simps]
def WCSPHStep.init (p : Particle) : Particle :=
  { p with x0 := p.x, y0 := p.y, z0 := p.z,
           u0 := p.u, v0 := p.v, w0 := p.w, rho0 := p.rho }

/-- `WCSPHStep.stage1`: half step from the predictor values. -/
@[simps]
def WCSPHStep.stage1 (p : Particle) (dt : ℚ) : Particle :=
  let dtb2 := 0.5 * dt
  { p with u := p.u0 + dtb2 * p.au,
           v := p.v0 + dtb2 * p.av,
           w := p.w0 + dtb2 * p.aw,
           x := p.x0 + dtb2 * p.ax,
           y := p.y0 + dtb2 * p.ay,
           z := p.z0 + dtb2 * p.az,
           rho := p.rho0 + dtb2 * p.arho }

/-- `WCSPHStep.stage2`: full step from the predictor values. -/
@[simps]
def WCSPHStep.stage2 (p : Particle) (dt : ℚ) : Particle :=
  { p with u := p.u0 + dt * p.au,
           v := p.v0 + dt * p.av,
           w := p.w0 + dt * p.aw,
           x := p.x0 + dt * p.ax,
           y := p.y0 + dt * p.ay,
           z := p.z0 + dt * p.az,
           rho := p.rho0 + dt * p.arho }

/-- `WCSPHTVDRK3Step.initialize`: copy current state into the predictor
properties. -/
@[simps]
def WCSPHTVDRK3Step.init (p : Particle) : Particle :=
  { p with x0 := p.x, y0 := p.y, z0 := p.z,
           u0 := p.u, v0 := p.v, w0 := p.w, rho0 := p.rho }

/-- `WCSPHTVDRK3Step.stage1`: full Euler step from the predictor values. -/
@[simps]
def WCSPHTVDRK3Step.stage1 (p : Particle) (dt : ℚ) : Particle :=
  { p with u := p.u0 + dt * p.au,
           v := p.v0 + dt * p.av,
           w := p.w0 + dt * p.aw,
           x := p.x0 + dt * p.ax,
           y := p.y0 + dt * p.ay,
           z := p.z0 + dt * p.az,
           rho := p.rho0 + dt * p.arho }

/-- `WCSPHTVDRK3Step.stage2`: blend `0.75*predictor + 0.25*(Euler step from
the current value)`; each line reads its own quantity's current value before
overwriting it. -/
@[simps]
def WCSPHTVDRK3Step.stage2 (p : Particle) (dt : ℚ) : Particle :=
  { p with u := 0.75 * p.u0 + 0.25 * (p.u + dt * p.au),
           v := 0.75 * p.v0 + 0.25 * (p.v + dt * p.av),
           w := 0.75 * p.w0 + 0.25 * (p.w + dt * p.aw),
           x := 0.75 * p.x0 + 0.25 * (p.x + dt * p.ax),
           y := 0.75 * p.y0 + 0.25 * (p.y + dt * p.ay),
           z := 0.75 * p.z0 + 0.25 * (p.z + dt * p.az),
           rho := 0.75 * p.rho0 + 0.25 * (p.rho + dt * p.arho) }

/-- `WCSPHTVDRK3Step.stage3`: blend `(1/3)*predictor + (2/3)*(Euler step from
the current value)`; `oneby3 = 1./3.`, `twoby3 = 2./3.` in the source. -/
@[simps]
def WCSPHTVDRK3Step.stage3 (p : Particle) (dt : ℚ) : Particle :=
  let oneby3 : ℚ := 1 / 3
  let twoby3 : ℚ := 2 / 3
  { p with u := oneby3 * p.u0 + twoby3 * (p.u + dt * p.au),
           v := oneby3 * p.v0 + twoby3 * (p.v + dt * p.av),
           w := oneby3 * p.w0 + twoby3 * (p.w + dt * p.aw),
           x := oneby3 * p.x0 + twoby3 * (p.x + dt * p.ax),
           y := oneby3 * p.y0 + twoby3 * (p.y + dt * p.ay),
           z := oneby3 * p.z0 + twoby3 * (p.z + dt * p.az),
           rho := oneby3 * p.rho0 + twoby3 * (p.rho + dt * p.arho) }

/-- `SolidMechStep.initialize`: predictor copies of position, velocity,
density, energy and the six deviatoric stress components. -/
@[simps]
def SolidMechStep.init (p : Particle) : Particle :=
  { p with x0 := p.x, y0 := p.y, z0 := p.z,
           u0 := p.u, v0 := p.v, w0 := p.w,
           rho0 := p.rho, e0 := p.e,
           s000 := p.s00, s010 := p.s01, s020 := p.s02,
           s110 := p.s11, s120 := p.s12, s220 := p.s22 }

/-- `SolidMechStep.stage1`: half step of velocity, position, density, energy
and stress from the predictor values. -/
@[simps]
def SolidMechStep.stage1 (p : Particle) (dt : ℚ) : Particle :=
  let dtb2 := 0.5 * dt
  { p with u := p.u0 + dtb2 * p.au,
           v := p.v0 + dtb2 * p.av,
           w := p.w0 + dtb2 * p.aw,
           x := p.x0 + dtb2 * p.ax,
           y := p.y0 + dtb2 * p.ay,
           z := p.z0 + dtb2 * p.az,
           rho := p.rho0 + dtb2 * p.arho,
           e := p.e0 + dtb2 * p.ae,
           s00 := p.s000 + dtb2 * p.as00,
           s01 := p.s010 + dtb2 * p.as01,
           s02 := p.s020 + dtb2 * p.as02,
           s11 := p.s110 + dtb2 * p.as11,
           s12 := p.s120 + dtb2 * p.as12,
           s22 := p.s220 + dtb2 * p.as22 }

/-- `SolidMechStep.stage2`: full step of the same quantities from the
predictor values. -/
@[simps]
def SolidMechStep.stage2 (p : Particle) (dt : ℚ) : Particle :=
  { p with u := p.u0 + dt * p.au,
           v := p.v0 + dt * p.av,
           w := p.w0 + dt * p.aw,
           x := p.x0 + dt * p.ax,
           y := p.y0 + dt * p.ay,
           z := p.z0 + dt * p.az,
           rho := p.rho0 + dt * p.arho,
           e := p.e0 + dt * p.ae,
           s00 := p.s000 + dt * p.as00,
           s01 := p.s010 + dt * p.as01,
           s02 := p.s020 + dt * p.as02,
           s11 := p.s110 + dt * p.as11,
           s12 := p.s120 + dt * p.as12,
           s22 := p.s220 + dt * p.as22 }

/-- `TransportVelocityStep.initialize` is `pass`. -/
@[simp]
def TransportVelocityStep.init (p : Particle) : Particle := p

/-- `TransportVelocityStep.stage1`: half step of the physical velocity, then
the advection velocity is assigned (not incremented) from the new physical
velocity plus a half step of the advection acceleration, then the position
advances by a full `dt` using the advection velocity. -/
@[simps]
def TransportVelocityStep.stage1 (p : Particle) (dt : ℚ) : Particle :=
  let dtb2 := 0.5 * dt
  let u := p.u + dtb2 * p.au
  let v := p.v + dtb2 * p.av
  let uhat := u + dtb2 * p.auhat
  let vhat := v + dtb2 * p.avhat
  let x := p.x + dt * uhat
  let y := p.y + dt * vhat
  { p with u := u, v := v, uhat := uhat, vhat := vhat, x := x, y := y }

/-- `TransportVelocityStep.stage2`: corrector half step of the physical
velocity, then recomputation of the squared speed from the new velocity. -/
@[simps]
def TransportVelocityStep.stage2 (p : Particle) (dt : ℚ) : Particle :=
  let dtb2 := 0.5 * dt
  let u := p.u + dtb2 * p.au
  let v := p.v + dtb2 * p.av
  let vmag2 := u * u + v * v
  { p with u := u, v := v, vmag2 := vmag2 }

/-- `AdamiVerletStep.initialize` is `pass`. -/
@[simp]
def AdamiVerletStep.init (p : Particle) : Particle := p

/-- `AdamiVerletStep.stage1`: velocity and position predictor half steps; the
position update reads the freshly updated velocity. -/
@[simps]
def AdamiVerletStep.stage1 (p : Particle) (dt : ℚ) : Particle :=
  let dtb2 := 0.5 * dt
  let u := p.u + dtb2 * p.au
  let v := p.v + dtb2 * p.av
  let x := p.x + dtb2 * u
  let y := p.y + dtb2 * v
  { p with u := u, v := v, x := x, y := y }

/-- `AdamiVerletStep.stage2`: corrector half steps of velocity and position,
a full density step from the continuity rate, and recomputation of the
squared speed. -/
@[simps]
def AdamiVerletStep.stage2 (p : Particle) (dt : ℚ) : Particle :=
  let dtb2 := 0.5 * dt
  let u := p.u + dtb2 * p.au
  let v := p.v + dtb2 * p.av
  let x := p.x + dtb2 * u
  let y := p.y + dtb2 * v
  let rho := p.rho + dt * p.arho
  let vmag2 := u * u + v * v
  { p with u := u, v := v, x := x, y := y, rho := rho, vmag2 := vmag2 }

/-- `GasDFluidStep.initialize`: predictor copies of position, velocity,
energy and smoothing length, and the unconditional resets `converged = 0`,
`omega = 1.0`. -/
@[simps]
def GasDFluidStep.init (p : Particle) : Particle :=
  { p with x0 := p.x, y0 := p.y, z0 := p.z,
           u0 := p.u, v0 := p.v, w0 := p.w,
           e0 := p.e, h0 := p.h,
           converged := 0, omega := 1 }

/-- `GasDFluidStep.stage1`: half step from the predictor values; the position
update reads the freshly updated velocity. -/
@[simps]
def GasDFluidStep.stage1 (p : Particle) (dt : ℚ) : Particle :=
  let dtb2 := 0.5 * dt
  let u := p.u0 + dtb2 * p.au
  let v := p.v0 + dtb2 * p.av
  let w := p.w0 + dtb2 * p.aw
  let x := p.x0 + dtb2 * u
  let y := p.y0 + dtb2 * v
  let z := p.z0 + dtb2 * w
  let e := p.e0 + dtb2 * p.ae
  { p with u := u, v := v, w := w, x := x, y := y, z := z, e := e }

/-- `GasDFluidStep.stage2`: full step from the predictor values; the position
update reads the freshly updated velocity. -/
@[simps]
def GasDFluidStep.stage2 (p : Particle) (dt : ℚ) : Particle :=
  let u := p.u0 + dt * p.au
  let v := p.v0 + dt * p.av
  let w := p.w0 + dt * p.aw
  let x := p.x0 + dt * u
  let y := p.y0 + dt * v
  let z := p.z0 + dt * w
  let e := p.e0 + dt * p.ae
  { p with u := u, v := v, w := w, x := x, y := y, z := z, e := e }

/-- `TwoStageRigidBodyStep.initialize`: predictor copies of velocity and
position. -/
@[simps]
def TwoStageRigidBodyStep.init (p : Particle) : Particle :=
  { p with u0 := p.u, v0 := p.v, w0 := p.w,
           x0 := p.x, y0 := p.y, z0 := p.z }

/-- `TwoStageRigidBodyStep.stage1`: half step of velocity from the prescribed
acceleration `(ax, ay, az)`, then position from the time-centered velocity
`0.5*(new + predictor)`. -/
@[simps]
def TwoStageRigidBodyStep.stage1 (p : Particle) (dt : ℚ) : Particle :=
  let dtb2 := 0.5 * dt
  let u := p.u0 + dtb2 * p.ax
  let v := p.v0 + dtb2 * p.ay
  let w := p.w0 + dtb2 * p.az
  let x := p.x0 + dtb2 * 0.5 * (u + p.u0)
  let y := p.y0 + dtb2 * 0.5 * (v + p.v0)
  let z := p.z0 + dtb2 * 0.5 * (w + p.w0)
  { p with u := u, v := v, w := w, x := x, y := y, z := z }

/-- `TwoStageRigidBodyStep.stage2`: full step of velocity from the prescribed
acceleration, then position from the time-centered velocity. -/
@[simps]
def TwoStageRigidBodyStep.stage2 (p : Particle) (dt : ℚ) : Particle :=
  let u := p.u0 + dt * p.ax
  let v := p.v0 + dt * p.ay
  let w := p.w0 + dt * p.az
  let x := p.x0 + dt * 0.5 * (u + p.u0)
  let y := p.y0 + dt * 0.5 * (v + p.v0)
  let z := p.z0 + dt * 0.5 * (w + p.w0)
  { p with u := u, v := v, w := w, x := x, y := y, z := z }

/-- `OneStageRigidBodyStep.initialize`: predictor copies of velocity and
position. -/
@[simps]
def OneStageRigidBodyStep.init (p : Particle) : Particle :=
  { p with u0 := p.u, v0 := p.v, w0 := p.w,
           x0 := p.x, y0 := p.y, z0 := p.z }

/-- `OneStageRigidBodyStep.stage1` is `pass`. -/
@[simp]
def OneStageRigidBodyStep.stage1 (p : Particle) (dt : ℚ) : Particle := p

/-- `OneStageRigidBodyStep.stage2`: the whole update; velocity increments by
a full step of the prescribed acceleration, position by the time-centered
average of the new and predictor velocities. -/
@[simps]
def OneStageRigidBodyStep.stage2 (p : Particle) (dt : ℚ) : Particle :=
  let u := p.u + dt * p.ax
  let v := p.v + dt * p.ay
  let w := p.w + dt * p.az
  let x := p.x + dt * 0.5 * (u + p.u0)
  let y := p.y + dt * 0.5 * (v + p.v0)
  let z := p.z + dt * 0.5 * (w + p.w0)
  { p with u := u, v := v, w := w, x := x, y := y, z := z }

/-- `VerletSymplecticWCSPHStep` defines no `initialize`; the inherited base
method is `pass`. -/
@[simp]
def VerletSymplecticWCSPHStep.init (p : Particle) : Particle := p

/-- `VerletSymplecticWCSPHStep.stage1`: half step of position from the
current velocity; nothing else changes. -/
@[simps]
def VerletSymplecticWCSPHStep.stage1 (p : Particle) (dt : ℚ) : Particle :=
  let dtb2 := 0.5 * dt
  { p with x := p.x + dtb2 * p.u,
           y := p.y + dtb2 * p.v,
           z := p.z + dtb2 * p.w }

/-- `VerletSymplecticWCSPHStep.stage2`: full velocity step from the
acceleration, then a half step of position from the XSPH-corrected velocity
`(ax, ay, az)`. -/
@[simps]
def VerletSymplecticWCSPHStep.stage2 (p : Particle) (dt : ℚ) : Particle :=
  let dtb2 := 0.5 * dt
  { p with u := p.u + dt * p.au,
           v := p.v + dt * p.av,
           w := p.w + dt * p.aw,
           x := p.x + dtb2 * p.ax,
           y := p.y + dtb2 * p.ay,
           z := p.z + dtb2 * p.az }

/-- Array-level state: one `Particle` record per particle index. -/
abbrev PState := Nat → Particle

/-- Apply a per-particle operation at index `i`: the effect of one source
call with `d_idx = i`.  Every array access in every method of the source is
at index `d_idx`, so a call is exactly a `Function.update` at `i` with the
new record computed from the old record at `i`. -/
def applyAt (f : Particle → ℚ → Particle) (s : PState) (i : Nat) (dt : ℚ) :
    PState :=
  Function.update s i (f (s i) dt)

/-- Run a scheme's `initialize` for every particle: the driver's
initialize-all barrier that precedes any stage call. -/
def initAll (f : Particle → Particle) (s : PState) : PState :=
  fun j => f (s j)

/-- One tag per stage method defined in `integrator_step.py`. -/
inductive StageTag where
  | euler1
  | wcsph1
  | wcsph2
  | tvd1
  | tvd2
  | tvd3
  | solid1
  | solid2
  | tv1
  | tv2
  | adami1
  | adami2
  | gasd1
  | gasd2
  | two1
  | two2
  | one1
  | one2
  | verlet1
  | verlet2
  deriving DecidableEq

/-- The stage method a tag denotes. -/
def StageTag.fn : StageTag → Particle → ℚ → Particle
  | .euler1 => EulerStep.stage1
  | .wcsph1 => WCSPHStep.stage1
  | .wcsph2 => WCSPHStep.stage2
  | .tvd1 => WCSPHTVDRK3Step.stage1
  | .tvd2 => WCSPHTVDRK3Step.stage2
  | .tvd3 => WCSPHTVDRK3Step.stage3
  | .solid1 => SolidMechStep.stage1
  | .solid2 => SolidMechStep.stage2
  | .tv1 => TransportVelocityStep.stage1
  | .tv2 => TransportVelocityStep.stage2
  | .adami1 => AdamiVerletStep.stage1
  | .adami2 => AdamiVerletStep.stage2
  | .gasd1 => GasDFluidStep.stage1
  | .gasd2 => GasDFluidStep.stage2
  | .two1 => TwoStageRigidBodyStep.stage1
  | .two2 => TwoStageRigidBodyStep.stage2
  | .one1 => OneStageRigidBodyStep.stage1
  | .one2 => OneStageRigidBodyStep.stage2
  | .verlet1 => VerletSymplecticWCSPHStep.stage1
  | .verlet2 => VerletSymplecticWCSPHStep.stage2

/-- One call of the outer driver touching particle `i`: either a stage
method of some scheme with some timestep, or the external acceleration
evaluator overwriting the acceleration / rate entries of particle `i` with
arbitrary values. -/
inductive Call where
  | stage (t : StageTag) (i : Nat) (dt : ℚ)
  | evalAccel (i : Nat)
      (b1 b2 b3 b4 b5 b6 b7 b8 b9 b10 b11 b12 b13 b14 b15 b16 : ℚ)

/-- The state transformer of one driver call. -/
def Call.apply : Call → PState → PState
  | .stage t i dt, s => applyAt t.fn s i dt
  | .evalAccel i b1 b2 b3 b4 b5 b6 b7 b8 b9 b10 b11 b12 b13 b14 b15 b16, s =>
      Function.update s i
        { s i with
          au := b1, av := b2, aw := b3, ax := b4, ay := b5, az := b6,
          arho := b7, ae := b8, auhat := b9, avhat := b10, as00 := b11,
          as01 := b12, as02 := b13, as11 := b14, as12 := b15, as22 := b16 }

/-- Fold a list of driver calls over the array-level state. -/
def runCalls (cs : List Call) (s : PState) : PState :=
  cs.foldl (fun s c => c.apply s) s

/-- The predictor (`*0`) entries of two particle records agree. -/
def predsEq (p q : Particle) : Prop :=
  p.x0 = q.x0 ∧ p.y0 = q.y0 ∧ p.z0 = q.z0 ∧ p.u0 = q.u0 ∧ p.v0 = q.v0 ∧
  p.w0 = q.w0 ∧ p.rho0 = q.rho0 ∧ p.e0 = q.e0 ∧ p.h0 = q.h0 ∧
  p.s000 = q.s000 ∧ p.s010 = q.s010 ∧ p.s020 = q.s020 ∧
  p.s110 = q.s110 ∧ p.s120 = q.s120 ∧ p.s220 = q.s220

/-- Every `initialize` and stage operation of every scheme in the file, as a
function of the particle record and `dt` (`initialize` takes no `dt` in the
source; it is padded with an ignored argument). -/
def allOps : List (Particle → ℚ → Particle) :=
  [fun p _ => EulerStep.init p,
   EulerStep.stage1,
   fun p _ => WCSPHStep.init p,
   WCSPHStep.stage1,
   WCSPHStep.stage2,
   fun p _ => WCSPHTVDRK3Step.init p,
   WCSPHTVDRK3Step.stage1,
   WCSPHTVDRK3Step.stage2,
   WCSPHTVDRK3Step.stage3,
   fun p _ => SolidMechStep.init p,
   SolidMechStep.stage1,
   SolidMechStep.stage2,
   fun p _ => TransportVelocityStep.init p,
   TransportVelocityStep.stage1,
   TransportVelocityStep.stage2,
   fun p _ => AdamiVerletStep.init p,
   AdamiVerletStep.stage1,
   AdamiVerletStep.stage2,
   fun p _ => GasDFluidStep.init p,
   GasDFluidStep.stage1,
   GasDFluidStep.stage2,
   fun p _ => TwoStageRigidBodyStep.init p,
   TwoStageRigidBodyStep.stage1,
   TwoStageRigidBodyStep.stage2,
   fun p _ => OneStageRigidBodyStep.init p,
   OneStageRigidBodyStep.stage1,
   OneStageRigidBodyStep.stage2,
   fun p _ => VerletSymplecticWCSPHStep.init p,
   VerletSymplecticWCSPHStep.stage1,
   VerletSymplecticWCSPHStep.stage2]

/-- A particle group as the persistence layer sees it: named property
arrays, named constants, and the ordered output-array selection. -/
structure ParticleGroup where
  props : List (String × List ℚ)
  consts : List (String × List ℚ)
  output_property_arrays : List String

/-- An on-disk snapshot of one group in the current format: the stored
(selected) property arrays, the constants section, and the recorded
output-array name list. -/
structure Snapshot where
  stored_props : List (String × List ℚ)
  stored_consts : List (String × List ℚ)
  output_names : List String

/-- Modelled from the spec: `pysph.solver.utils.dump` (the module itself is
not among the shown sources, only its test is).  Per spec section 6, a
current-format snapshot holds the selected subset of properties (selection by
`output_property_arrays`), the constants, and the ordered list of output
property names. -/
def SolverUtils.dump (g : ParticleGroup) : Snapshot :=
  { stored_props :=
      g.props.filter (fun pr => g.output_property_arrays.contains pr.1),
    stored_consts := g.consts,
    output_names := g.output_property_arrays }

/-- Modelled from the spec: `pysph.solver.utils.load` (the module itself is
not among the shown sources, only its test is).  Per spec section 6, loading
reconstructs a group whose property names are exactly the stored names and
whose `output_property_arrays` metadata is the recorded list. -/
def SolverUtils.load (s : Snapshot) : ParticleGroup :=
  { props := s.stored_props,
    consts := s.stored_consts,
    output_property_arrays := s.output_names }

/-- A concrete all-zero array state. -/
def zeroState : PState := fun _ => {}

/-- The driver's full timestep for `EulerStep` (spec section 2: `initialize`
once, then every stage in order, all with the same `dt`). -/
def EulerStep.run (p : Particle) (dt : ℚ) : Particle :=
  EulerStep.stage1 (EulerStep.init p) dt

/-- The driver's full timestep for `WCSPHStep`. -/
def WCSPHStep.run (p : Particle) (dt : ℚ) : Particle :=
  WCSPHStep.stage2 (WCSPHStep.stage1 (WCSPHStep.init p) dt) dt

/-- The driver's full timestep for `WCSPHTVDRK3Step`. -/
def WCSPHTVDRK3Step.run (p : Particle) (dt : ℚ) : Particle :=
  WCSPHTVDRK3Step.stage3
    (WCSPHTVDRK3Step.stage2
      (WCSPHTVDRK3Step.stage1 (WCSPHTVDRK3Step.init p) dt) dt) dt

/-- The driver's full timestep for `SolidMechStep`. -/
def SolidMechStep.run (p : Particle) (dt : ℚ) : Particle :=
  SolidMechStep.stage2 (SolidMechStep.stage1 (SolidMechStep.init p) dt) dt

/-- The driver's full timestep for `TransportVelocityStep`. -/
def TransportVelocityStep.run (p : Particle) (dt : ℚ) : Particle :=
  TransportVelocityStep.stage2
    (TransportVelocityStep.stage1 (TransportVelocityStep.init p) dt) dt

/-- The driver's full timestep for `AdamiVerletStep`. -/
def AdamiVerletStep.run (p : Particle) (dt : ℚ) : Particle :=
  AdamiVerletStep.stage2 (AdamiVerletStep.stage1 (AdamiVerletStep.init p) dt) dt

/-- The driver's full timestep for `GasDFluidStep`. -/
def GasDFluidStep.run (p : Particle) (dt : ℚ) : Particle :=
  GasDFluidStep.stage2 (GasDFluidStep.stage1 (GasDFluidStep.init p) dt) dt

/-- The driver's full timestep for `TwoStageRigidBodyStep`. -/
def TwoStageRigidBodyStep.run (p : Particle) (dt : ℚ) : Particle :=
  TwoStageRigidBodyStep.stage2
    (TwoStageRigidBodyStep.stage1 (TwoStageRigidBodyStep.init p) dt) dt

/-- The driver's full timestep for `OneStageRigidBodyStep`. -/
def OneStageRigidBodyStep.run (p : Particle) (dt : ℚ) : Particle :=
  OneStageRigidBodyStep.stage2
    (OneStageRigidBodyStep.stage1 (OneStageRigidBodyStep.init p) dt) dt

/-- The driver's full timestep for `VerletSymplecticWCSPHStep`. -/
def VerletSymplecticWCSPHStep.run (p : Particle) (dt : ℚ) : Particle :=
  VerletSymplecticWCSPHStep.stage2
    (VerletSymplecticWCSPHStep.stage1 (VerletSymplecticWCSPHStep.init p) dt) dt

/-- C8: `EulerStep.stage1` computes the new velocity `u + dt*au` (likewise
`v`, `w`), then the new position `x + dt*u_new` from the already-updated
velocity (likewise `y`, `z`), and the new density `rho + dt*arho`;
`EulerStep.initialize` changes nothing. -/
theorem c8_euler_step_formulas (p : Particle) (dt : ℚ) :
    EulerStep.init p = p ∧
    (EulerStep.stage1 p dt).u = p.u + dt * p.au ∧
    (EulerStep.stage1 p dt).v = p.v + dt * p.av ∧
    (EulerStep.stage1 p dt).w = p.w + dt * p.aw ∧
    (EulerStep.stage1 p dt).x = p.x + dt * (p.u + dt * p.au) ∧
    (EulerStep.stage1 p dt).y = p.y + dt * (p.v + dt * p.av) ∧
    (EulerStep.stage1 p dt).z = p.z + dt * (p.w + dt * p.aw) ∧
    (EulerStep.stage1 p dt).rho = p.rho + dt * p.arho := by
  refine ⟨rfl, ?_, ?_, ?_, ?_, ?_, ?_, ?_⟩ <;> simp [EulerStep.stage1]

/-- C2: for `WCSPHTVDRK3Step` with the acceleration arrays held constant
across the three stages, `initialize; stage1; stage2; stage3` gives, for each
updated quantity `q` in `u, v, w, x, y, z, rho`, exactly `q0 + dt * a_q` —
the same final state as one full-`dt` Euler step from the predictor value
(exact identity in rational arithmetic, with the literal blend coefficients
`0.75 / 0.25` and `1/3, 2/3` of the source). -/
theorem c2_tvdrk3_collapses_to_euler (p : Particle) (dt : ℚ) :
    (WCSPHTVDRK3Step.run p dt).u = p.u + dt * p.au ∧
    (WCSPHTVDRK3Step.run p dt).v = p.v + dt * p.av ∧
    (WCSPHTVDRK3Step.run p dt).w = p.w + dt * p.aw ∧
    (WCSPHTVDRK3Step.run p dt).x = p.x + dt * p.ax ∧
    (WCSPHTVDRK3Step.run p dt).y = p.y + dt * p.ay ∧
    (WCSPHTVDRK3Step.run p dt).z = p.z + dt * p.az ∧
    (WCSPHTVDRK3Step.run p dt).rho = p.rho + dt * p.arho := by
  refine ⟨?_, ?_, ?_, ?_, ?_, ?_, ?_⟩ <;> (simp [WCSPHTVDRK3Step.run]; ring)

/-- C3: for the predictor-corrector schemes `WCSPHStep` and `SolidMechStep`
with constant accelerations across both stages, `initialize; stage1; stage2`
equals one full-`dt` Euler-type step from the pre-step state for every
updated quantity, and the `stage2` result does not depend on whether `stage1`
ran, since `stage2` computes every output from the predictor values and the
accelerations alone. -/
theorem c3_predictor_corrector_full_step (p : Particle) (dt : ℚ) :
    ((WCSPHStep.run p dt).u = p.u + dt * p.au ∧
     (WCSPHStep.run p dt).v = p.v + dt * p.av ∧
     (WCSPHStep.run p dt).w = p.w + dt * p.aw ∧
     (WCSPHStep.run p dt).x = p.x + dt * p.ax ∧
     (WCSPHStep.run p dt).y = p.y + dt * p.ay ∧
     (WCSPHStep.run p dt).z = p.z + dt * p.az ∧
     (WCSPHStep.run p dt).rho = p.rho + dt * p.arho) ∧
    WCSPHStep.stage2 (WCSPHStep.stage1 (WCSPHStep.init p) dt) dt
      = WCSPHStep.stage2 (WCSPHStep.init p) dt ∧
    ((SolidMechStep.run p dt).u = p.u + dt * p.au ∧
     (SolidMechStep.run p dt).v = p.v + dt * p.av ∧
     (SolidMechStep.run p dt).w = p.w + dt * p.aw ∧
     (SolidMechStep.run p dt).x = p.x + dt * p.ax ∧
     (SolidMechStep.run p dt).y = p.y + dt * p.ay ∧
     (SolidMechStep.run p dt).z = p.z + dt * p.az ∧
     (SolidMechStep.run p dt).rho = p.rho + dt * p.arho ∧
     (SolidMechStep.run p dt).e = p.e + dt * p.ae ∧
     (SolidMechStep.run p dt).s00 = p.s00 + dt * p.as00 ∧
     (SolidMechStep.run p dt).s01 = p.s01 + dt * p.as01 ∧
     (SolidMechStep.run p dt).s02 = p.s02 + dt * p.as02 ∧
     (SolidMechStep.run p dt).s11 = p.s11 + dt * p.as11 ∧
     (SolidMechStep.run p dt).s12 = p.s12 + dt * p.as12 ∧
     (SolidMechStep.run p dt).s22 = p.s22 + dt * p.as22) ∧
    SolidMechStep.stage2 (SolidMechStep.stage1 (SolidMechStep.init p) dt) dt
      = SolidMechStep.stage2 (SolidMechStep.init p) dt := by
  refine ⟨⟨?_, ?_, ?_, ?_, ?_, ?_, ?_⟩, rfl,
    ⟨?_, ?_, ?_, ?_, ?_, ?_, ?_, ?_, ?_, ?_, ?_, ?_, ?_, ?_⟩, rfl⟩ <;>
    simp [WCSPHStep.run, SolidMechStep.run]

/-- C4: for both rigid-body steppers, with the prescribed acceleration held
in `(ax, ay, az)` across both stages, `initialize; stage1; stage2` over one
timestep gives each position coordinate as `x0 + u0*dt + 0.5*a*dt^2` and each
velocity component as `u0 + a*dt` (exact in rational arithmetic), `x0, u0`
being the pre-step position and velocity. -/
theorem c4_rigid_body_projectile_motion (p : Particle) (dt : ℚ) :
    ((TwoStageRigidBodyStep.run p dt).x = p.x + p.u * dt + 0.5 * p.ax * dt ^ 2 ∧
     (TwoStageRigidBodyStep.run p dt).y = p.y + p.v * dt + 0.5 * p.ay * dt ^ 2 ∧
     (TwoStageRigidBodyStep.run p dt).z = p.z + p.w * dt + 0.5 * p.az * dt ^ 2 ∧
     (TwoStageRigidBodyStep.run p dt).u = p.u + p.ax * dt ∧
     (TwoStageRigidBodyStep.run p dt).v = p.v + p.ay * dt ∧
     (TwoStageRigidBodyStep.run p dt).w = p.w + p.az * dt) ∧
    ((OneStageRigidBodyStep.run p dt).x = p.x + p.u * dt + 0.5 * p.ax * dt ^ 2 ∧
     (OneStageRigidBodyStep.run p dt).y = p.y + p.v * dt + 0.5 * p.ay * dt ^ 2 ∧
     (OneStageRigidBodyStep.run p dt).z = p.z + p.w * dt + 0.5 * p.az * dt ^ 2 ∧
     (OneStageRigidBodyStep.run p dt).u = p.u + p.ax * dt ∧
     (OneStageRigidBodyStep.run p dt).v = p.v + p.ay * dt ∧
     (OneStageRigidBodyStep.run p dt).w = p.w + p.az * dt) := by
  refine ⟨⟨?_, ?_, ?_, ?_, ?_, ?_⟩, ?_, ?_, ?_, ?_, ?_, ?_⟩ <;>
    (simp [TwoStageRigidBodyStep.run, OneStageRigidBodyStep.run]; ring)

/-- C7: `VerletSymplecticWCSPHStep.stage1` only half-steps the position from
the raw velocity; `stage2` full-steps the velocity from the acceleration and
then half-steps the position from the XSPH-corrected velocity `(ax, ay, az)`;
neither stage touches `rho` or `arho` (both equalities list every field that
changes, and the right-hand sides never mention `rho`). -/
theorem c7_verlet_symplectic_split (p : Particle) (dt : ℚ) :
    VerletSymplecticWCSPHStep.stage1 p dt
      = { p with x := p.x + 0.5 * dt * p.u,
                 y := p.y + 0.5 * dt * p.v,
                 z := p.z + 0.5 * dt * p.w } ∧
    VerletSymplecticWCSPHStep.stage2 p dt
      = { p with u := p.u + dt * p.au,
                 v := p.v + dt * p.av,
                 w := p.w + dt * p.aw,
                 x := p.x + 0.5 * dt * p.ax,
                 y := p.y + 0.5 * dt * p.ay,
                 z := p.z + 0.5 * dt * p.az } := by
  exact ⟨rfl, rfl⟩

/-- C10: `TransportVelocityStep.stage1` overwrites the advection velocity:
`uhat = u_new + (dt/2)*auhat`, `vhat = v_new + (dt/2)*avhat` with `u_new` the
freshly half-stepped physical velocity; the previous `uhat, vhat` are never
read (the right-hand sides never mention them), and at `dt = 0` the stage
sets `(uhat, vhat)` to the physical velocity `(u, v)` while changing nothing
else. -/
theorem c10_transport_velocity_overwrites_uhat (p : Particle) (dt : ℚ) :
    TransportVelocityStep.stage1 p dt
      = { p with
          u := p.u + 0.5 * dt * p.au,
          v := p.v + 0.5 * dt * p.av,
          uhat := p.u + 0.5 * dt * p.au + 0.5 * dt * p.auhat,
          vhat := p.v + 0.5 * dt * p.av + 0.5 * dt * p.avhat,
          x := p.x + dt * (p.u + 0.5 * dt * p.au + 0.5 * dt * p.auhat),
          y := p.y + dt * (p.v + 0.5 * dt * p.av + 0.5 * dt * p.avhat) } ∧
    TransportVelocityStep.stage1 p 0 = { p with uhat := p.u, vhat := p.v } := by
  constructor
  · rfl
  · apply Particle.ext1 <;> simp

/-- C9: dumping a particle group whose output selection is `["x", "y", "u"]`
and loading the snapshot yields exactly that list, in order, as the
`output_property_arrays` metadata of the loaded group. -/
theorem c9_output_array_selection_round_trip
    (props consts : List (String × List ℚ)) :
    (SolverUtils.load (SolverUtils.dump
        { props := props, consts := consts,
          output_property_arrays := ["x", "y", "u"] })).output_property_arrays
      = ["x", "y", "u"] := rfl

/-- C1 counterexample: `TransportVelocityStep` run with `dt = 0` on a
particle with `uhat = 1` and `u = 0` changes the `uhat` field (stage1
overwrites it with the physical velocity), so it is false that the only
fields changed by a zero-`dt` step are `GasDFluidStep`'s `converged` and
`omega` resets. -/
theorem c1_counterexample :
    (TransportVelocityStep.run ({ uhat := 1 } : Particle) 0).uhat
      ≠ ({ uhat := 1 } : Particle).uhat := by
  simp [TransportVelocityStep.run]

/-- C1 (amended): running `initialize` plus all stages with `dt = 0` leaves
every position, physical-velocity and density entry of the particle at its
pre-step value for all ten schemes, for any contents of the acceleration and
rate arrays; the fields that do change are exactly the scheme-specific
reset or derived fields: the predictor copies written by `initialize`,
`GasDFluidStep`'s `converged := 0` and `omega := 1.0`,
`TransportVelocityStep`'s advection velocity `(uhat, vhat)` (overwritten with
the physical velocity) and `vmag2`, and `AdamiVerletStep`'s `vmag2`. -/
theorem c1_zero_dt_is_identity_amended (p : Particle) :
    EulerStep.run p 0 = p ∧
    WCSPHStep.run p 0
      = { p with x0 := p.x, y0 := p.y, z0 := p.z,
                 u0 := p.u, v0 := p.v, w0 := p.w, rho0 := p.rho } ∧
    WCSPHTVDRK3Step.run p 0
      = { p with x0 := p.x, y0 := p.y, z0 := p.z,
                 u0 := p.u, v0 := p.v, w0 := p.w, rho0 := p.rho } ∧
    SolidMechStep.run p 0
      = { p with x0 := p.x, y0 := p.y, z0 := p.z,
                 u0 := p.u, v0 := p.v, w0 := p.w, rho0 := p.rho,
                 e0 := p.e, s000 := p.s00, s010 := p.s01, s020 := p.s02,
                 s110 := p.s11, s120 := p.s12, s220 := p.s22 } ∧
    TransportVelocityStep.run p 0
      = { p with uhat := p.u, vhat := p.v,
                 vmag2 := p.u * p.u + p.v * p.v } ∧
    AdamiVerletStep.run p 0
      = { p with vmag2 := p.u * p.u + p.v * p.v } ∧
    GasDFluidStep.run p 0
      = { p with x0 := p.x, y0 := p.y, z0 := p.z,
                 u0 := p.u, v0 := p.v, w0 := p.w, e0 := p.e, h0 := p.h,
                 converged := 0, omega := 1 } ∧
    TwoStageRigidBodyStep.run p 0
      = { p with x0 := p.x, y0 := p.y, z0 := p.z,
                 u0 := p.u, v0 := p.v, w0 := p.w } ∧
    OneStageRigidBodyStep.run p 0
      = { p with x0 := p.x, y0 := p.y, z0 := p.z,
                 u0 := p.u, v0 := p.v, w0 := p.w } ∧
    VerletSymplecticWCSPHStep.run p 0 = p := by
  refine ⟨?_, ?_, ?_, ?_, ?_, ?_, ?_, ?_, ?_, ?_⟩ <;>
    · apply Particle.ext1 <;>
        simp [EulerStep.run, WCSPHStep.run, WCSPHTVDRK3Step.run,
          SolidMechStep.run, TransportVelocityStep.run, AdamiVerletStep.run,
          GasDFluidStep.run, TwoStageRigidBodyStep.run,
          OneStageRigidBodyStep.run, VerletSymplecticWCSPHStep.run] <;>
        ring

lemma predsEq_refl (p : Particle) : predsEq p p := by
  simp [predsEq]

lemma predsEq_trans {p q r : Particle} (h1 : predsEq p q) (h2 : predsEq q r) :
    predsEq p r := by
  obtain ⟨a1, a2, a3, a4, a5, a6, a7, a8, a9, a10, a11, a12, a13, a14, a15⟩ := h1
  obtain ⟨b1, b2, b3, b4, b5, b6, b7, b8, b9, b10, b11, b12, b13, b14, b15⟩ := h2
  exact ⟨a1.trans b1, a2.trans b2, a3.trans b3, a4.trans b4, a5.trans b5,
    a6.trans b6, a7.trans b7, a8.trans b8, a9.trans b9, a10.trans b10,
    a11.trans b11, a12.trans b12, a13.trans b13, a14.trans b14, a15.trans b15⟩

/-- No stage method of any scheme writes any predictor (`*0`) entry. -/
lemma stage_preserves_preds (t : StageTag) (p : Particle) (dt : ℚ) :
    predsEq (t.fn p dt) p := by
  cases t <;> simp [StageTag.fn, predsEq]

/-- One driver call (a stage at some index, or the acceleration evaluator
rewriting the acceleration entries of some particle) preserves every
predictor entry of every particle. -/
lemma call_preserves_preds (c : Call) (s : PState) (j : Nat) :
    predsEq (c.apply s j) (s j) := by
  cases c with
  | stage t i dt =>
      by_cases h : j = i
      · subst h
        simpa [Call.apply, applyAt] using stage_preserves_preds t (s j) dt
      · simp only [Call.apply, applyAt, Function.update_noteq h]
        exact predsEq_refl _
  | evalAccel i b1 b2 b3 b4 b5 b6 b7 b8 b9 b10 b11 b12 b13 b14 b15 b16 =>
      by_cases h : j = i
      · subst h
        simp [Call.apply, predsEq]
      · simp only [Call.apply, Function.update_noteq h]
        exact predsEq_refl _

/-- Any sequence of driver calls preserves every predictor entry. -/
lemma runCalls_preserves_preds (cs : List Call) (s : PState) (j : Nat) :
    predsEq (runCalls cs s j) (s j) := by
  induction cs generalizing s with
  | nil => exact predsEq_refl _
  | cons c cs ih =>
      exact predsEq_trans (ih (c.apply s)) (call_preserves_preds c s j)

/-- C5: for each scheme whose `initialize` copies the current state into the
predictor properties, after `initialize` for all particles followed by any
sequence of stage calls — at any indices, with any timesteps, interleaved
with arbitrary rewrites of the acceleration arrays by the evaluator — every
predictor entry of every particle still equals the value `initialize` wrote:
the current value at the start of the timestep. -/
theorem c5_stages_never_write_predictors (cs : List Call) (s : PState)
    (j : Nat) :
    ((runCalls cs (initAll WCSPHStep.init s) j).x0 = (s j).x ∧
     (runCalls cs (initAll WCSPHStep.init s) j).y0 = (s j).y ∧
     (runCalls cs (initAll WCSPHStep.init s) j).z0 = (s j).z ∧
     (runCalls cs (initAll WCSPHStep.init s) j).u0 = (s j).u ∧
     (runCalls cs (initAll WCSPHStep.init s) j).v0 = (s j).v ∧
     (runCalls cs (initAll WCSPHStep.init s) j).w0 = (s j).w ∧
     (runCalls cs (initAll WCSPHStep.init s) j).rho0 = (s j).rho) ∧
    ((runCalls cs (initAll WCSPHTVDRK3Step.init s) j).x0 = (s j).x ∧
     (runCalls cs (initAll WCSPHTVDRK3Step.init s) j).y0 = (s j).y ∧
     (runCalls cs (initAll WCSPHTVDRK3Step.init s) j).z0 = (s j).z ∧
     (runCalls cs (initAll WCSPHTVDRK3Step.init s) j).u0 = (s j).u ∧
     (runCalls cs (initAll WCSPHTVDRK3Step.init s) j).v0 = (s j).v ∧
     (runCalls cs (initAll WCSPHTVDRK3Step.init s) j).w0 = (s j).w ∧
     (runCalls cs (initAll WCSPHTVDRK3Step.init s) j).rho0 = (s j).rho) ∧
    ((runCalls cs (initAll SolidMechStep.init s) j).x0 = (s j).x ∧
     (runCalls cs (initAll SolidMechStep.init s) j).y0 = (s j).y ∧
     (runCalls cs (initAll SolidMechStep.init s) j).z0 = (s j).z ∧
     (runCalls cs (initAll SolidMechStep.init s) j).u0 = (s j).u ∧
     (runCalls cs (initAll SolidMechStep.init s) j).v0 = (s j).v ∧
     (runCalls cs (initAll SolidMechStep.init s) j).w0 = (s j).w ∧
     (runCalls cs (initAll SolidMechStep.init s) j).rho0 = (s j).rho ∧
     (runCalls cs (initAll SolidMechStep.init s) j).e0 = (s j).e ∧
     (runCalls cs (initAll SolidMechStep.init s) j).s000 = (s j).s00 ∧
     (runCalls cs (initAll SolidMechStep.init s) j).s010 = (s j).s01 ∧
     (runCalls cs (initAll SolidMechStep.init s) j).s020 = (s j).s02 ∧
     (runCalls cs (initAll SolidMechStep.init s) j).s110 = (s j).s11 ∧
     (runCalls cs (initAll SolidMechStep.init s) j).s120 = (s j).s12 ∧
     (runCalls cs (initAll SolidMechStep.init s) j).s220 = (s j).s22) ∧
    ((runCalls cs (initAll GasDFluidStep.init s) j).x0 = (s j).x ∧
     (runCalls cs (initAll GasDFluidStep.init s) j).y0 = (s j).y ∧
     (runCalls cs (initAll GasDFluidStep.init s) j).z0 = (s j).z ∧
     (runCalls cs (initAll GasDFluidStep.init s) j).u0 = (s j).u ∧
     (runCalls cs (initAll GasDFluidStep.init s) j).v0 = (s j).v ∧
     (runCalls cs (initAll GasDFluidStep.init s) j).w0 = (s j).w ∧
     (runCalls cs (initAll GasDFluidStep.init s) j).e0 = (s j).e ∧
     (runCalls cs (initAll GasDFluidStep.init s) j).h0 = (s j).h) ∧
    ((runCalls cs (initAll TwoStageRigidBodyStep.init s) j).x0 = (s j).x ∧
     (runCalls cs (initAll TwoStageRigidBodyStep.init s) j).y0 = (s j).y ∧
     (runCalls cs (initAll TwoStageRigidBodyStep.init s) j).z0 = (s j).z ∧
     (runCalls cs (initAll TwoStageRigidBodyStep.init s) j).u0 = (s j).u ∧
     (runCalls cs (initAll TwoStageRigidBodyStep.init s) j).v0 = (s j).v ∧
     (runCalls cs (initAll TwoStageRigidBodyStep.init s) j).w0 = (s j).w) ∧
    ((runCalls cs (initAll OneStageRigidBodyStep.init s) j).x0 = (s j).x ∧
     (runCalls cs (initAll OneStageRigidBodyStep.init s) j).y0 = (s j).y ∧
     (runCalls cs (initAll OneStageRigidBodyStep.init s) j).z0 = (s j).z ∧
     (runCalls cs (initAll OneStageRigidBodyStep.init s) j).u0 = (s j).u ∧
     (runCalls cs (initAll OneStageRigidBodyStep.init s) j).v0 = (s j).v ∧
     (runCalls cs (initAll OneStageRigidBodyStep.init s) j).w0 = (s j).w) := by
  refine ⟨?_, ?_, ?_, ?_, ?_, ?_⟩
  · obtain ⟨h1, h2, h3, h4, h5, h6, h7, h8, h9, h10, h11, h12, h13, h14, h15⟩ :=
      runCalls_preserves_preds cs (initAll WCSPHStep.init s) j
    exact ⟨h1, h2, h3, h4, h5, h6, h7⟩
  · obtain ⟨h1, h2, h3, h4, h5, h6, h7, h8, h9, h10, h11, h12, h13, h14, h15⟩ :=
      runCalls_preserves_preds cs (initAll WCSPHTVDRK3Step.init s) j
    exact ⟨h1, h2, h3, h4, h5, h6, h7⟩
  · obtain ⟨h1, h2, h3, h4, h5, h6, h7, h8, h9, h10, h11, h12, h13, h14, h15⟩ :=
      runCalls_preserves_preds cs (initAll SolidMechStep.init s) j
    exact ⟨h1, h2, h3, h4, h5, h6, h7, h8, h10, h11, h12, h13, h14, h15⟩
  · obtain ⟨h1, h2, h3, h4, h5, h6, h7, h8, h9, h10, h11, h12, h13, h14, h15⟩ :=
      runCalls_preserves_preds cs (initAll GasDFluidStep.init s) j
    exact ⟨h1, h2, h3, h4, h5, h6, h8, h9⟩
  · obtain ⟨h1, h2, h3, h4, h5, h6, h7, h8, h9, h10, h11, h12, h13, h14, h15⟩ :=
      runCalls_preserves_preds cs (initAll TwoStageRigidBodyStep.init s) j
    exact ⟨h1, h2, h3, h4, h5, h6⟩
  · obtain ⟨h1, h2, h3, h4, h5, h6, h7, h8, h9, h10, h11, h12, h13, h14, h15⟩ :=
      runCalls_preserves_preds cs (initAll OneStageRigidBodyStep.init s) j
    exact ⟨h1, h2, h3, h4, h5, h6⟩

/-- C6 counterexample: `WCSPHStep.initialize` at a particle with `x = 1` and
predictor `x0 = 0` changes `x0`, so it is false that every initialize/stage
call writes only "current" properties (initialize writes the predictor
properties). -/
theorem c6_counterexample :
    (WCSPHStep.init ({ x := 1 } : Particle)).x0
      ≠ ({ x := 1 } : Particle).x0 := by decide

/-- C6 (amended): every initialize / stage operation of every scheme,
applied at particle index `i`, rewrites only index `i`'s record — any
`j ≠ i` is untouched — and the record it writes at `i` depends only on the
pre-call record at `i`; consequently applying the same operation at two
distinct indices commutes. -/
theorem c6_per_particle_locality_amended (f : Particle → ℚ → Particle)
    (hf : f ∈ allOps) (s t : PState) (i j : Nat) (dt : ℚ)
    (hij : i ≠ j) (hti : t i = s i) :
    applyAt f s i dt j = s j ∧
    applyAt f t i dt i = applyAt f s i dt i ∧
    applyAt f (applyAt f s i dt) j dt = applyAt f (applyAt f s j dt) i dt := by
  refine ⟨Function.update_noteq (Ne.symm hij) _ _, ?_, ?_⟩
  · simp [applyAt, hti]
  · have hji : j ≠ i := Ne.symm hij
    simp only [applyAt, Function.update_noteq hji, Function.update_noteq hij]
    exact Function.update_comm hij _ _ _

/-- Witness for the amended C6 theorem: `EulerStep.stage1` at indices `0`
and `1` with `dt = 1` on the all-zero state. -/
theorem c6_per_particle_locality_amended_witness :
    EulerStep.stage1 ∈ allOps ∧ (0 : Nat) ≠ 1 ∧ zeroState 0 = zeroState 0 ∧
    (applyAt EulerStep.stage1 zeroState 0 1 1 = zeroState 1 ∧
     applyAt EulerStep.stage1 zeroState 0 1 0
       = applyAt EulerStep.stage1 zeroState 0 1 0 ∧
     applyAt EulerStep.stage1 (applyAt EulerStep.stage1 zeroState 0 1) 1 1
       = applyAt EulerStep.stage1 (applyAt EulerStep.stage1 zeroState 1 1) 0 1) :=
  ⟨by simp [allOps], by decide, rfl,
   c6_per_particle_locality_amended EulerStep.stage1 (by simp [allOps])
     zeroState zeroState 0 1 1 (by decide) rfl⟩
